import Mathlib

/-!
# Middleware chaining for Lambda handlers (ello-golang-aws)

A shallow embedding of `lambda/lambda.go`, of `lambda/middleware` (`middleware.go`,
`context.go`, `metrics.go`), of `apigw/response` and of the wrappers of
`lambda/lambda_test.go`.

Go functions with side effects are embedded as state transformers over a world `σ`:
a function of Go type `func(context.Context, E) error` becomes
`Context → E → σ → GoError × σ`.  A wrapper is polymorphic in the world, exactly as
the Go wrappers do not know what the functions they wrap do.
-/

namespace ElloAws

/-! ## External types -/

/-- The part of `lambdacontext.LambdaContext` that the repository reads. -/
structure LambdaContext where
  AwsRequestID : String
  deriving DecidableEq, Repr

/-- A `logctx.Field` built by `logctx.String(name, value)`. -/
structure Field where
  name : String
  value : String
  deriving DecidableEq, Repr

/-- The constructor `logctx.String`. -/
def logctxString (name value : String) : Field := ⟨name, value⟩

/-- A `context.Context` as far as the repository observes it: the Lambda context stored by
`lambdacontext.NewContext` (absent outside the Lambda runtime; when present it is a non-nil
pointer, as the runtime and the tests store it) and the log context read back by
`logctx.Get`, a sequence of fields. -/
structure Context where
  lambda : Option LambdaContext
  logCtx : List Field
  deriving DecidableEq, Repr

/-- The empty context, `context.Background()`. -/
def background : Context := ⟨none, []⟩

/-- The library call `lambdacontext.NewContext(parent, lc)`. -/
def lambdacontextNewContext (parent : Context) (lc : LambdaContext) : Context :=
  { parent with lambda := some lc }

/-- The library call `lambdacontext.FromContext(ctx)`: the stored Lambda context and `ok`. -/
def lambdacontextFromContext (ctx : Context) : Option LambdaContext := ctx.lambda

/-- The library call `logctx.Add(ctx, fields...)`: a derived context whose log context is
the old one followed by `fields`, as `Test_contextFromEvent` observes through `logctx.Get`. -/
def logctxAdd (ctx : Context) (fields : List Field) : Context :=
  { ctx with logCtx := ctx.logCtx ++ fields }

/-- The library call `logctx.Get(ctx)`. -/
def logctxGet (ctx : Context) : List Field := ctx.logCtx

/-- A Go `error` value: `none` is `nil`, `some msg` an error carrying `msg`. -/
abbrev GoError := Option String

/-! ## `lambda/middleware/middleware.go`: the two capability interfaces -/

/-- The Go function type `func(context.Context, E) error`, run against a world `σ`. -/
abbrev HandlerFn (σ E : Type) := Context → E → σ → GoError × σ

/-- The Go function type `func(context.Context, E) (R, error)`, run against a world `σ`. -/
abbrev HandlerWithResponseFn (σ E R : Type) := Context → E → σ → (R × GoError) × σ

/-- The interface `middleware.NoResponse[E]`. -/
structure NoResponse (σ E : Type) where
  Wrap : HandlerFn σ E → HandlerFn σ E

/-- The interface `middleware.WithResponse[E, R]`. -/
structure WithResponse (σ E R : Type) where
  Wrap : HandlerWithResponseFn σ E R → HandlerWithResponseFn σ E R

/-! ## `lambda/lambda.go` -/

/-- The interface `lambda.Handler[E]`. -/
structure Handler (σ E : Type) where
  Handle : HandlerFn σ E

/-- The interface `lambda.HandlerWithResponse[E, R]`. -/
structure HandlerWithResponse (σ E R : Type) where
  Handle : HandlerWithResponseFn σ E R

/-- The loop `for i := len(middlewares) - 1; i >= 0; i-- { handlerFn = middlewares[i].Wrap(handlerFn) }`
of `wrappedHandlerFn`, entered with `i = n - 1`: `n` counts the iterations left. -/
def wrappedHandlerFn.loop {σ E : Type} (middlewares : List (NoResponse σ E)) :
    (n : Nat) → n ≤ middlewares.length → HandlerFn σ E → HandlerFn σ E
  | 0, _, handlerFn => handlerFn
  | i + 1, h, handlerFn =>
    wrappedHandlerFn.loop middlewares i (Nat.le_of_succ_le h)
      ((middlewares.get ⟨i, h⟩).Wrap handlerFn)

/-- The function `wrappedHandlerFn(handler, middlewares...)`. -/
def wrappedHandlerFn {σ E : Type} (handler : Handler σ E)
    (middlewares : List (NoResponse σ E)) : HandlerFn σ E :=
  wrappedHandlerFn.loop middlewares middlewares.length (Nat.le_refl _) handler.Handle

/-- The loop of `wrappedHandlerWithResponseFn`, entered with `i = n - 1`. -/
def wrappedHandlerWithResponseFn.loop {σ E R : Type} (middlewares : List (WithResponse σ E R)) :
    (n : Nat) → n ≤ middlewares.length → HandlerWithResponseFn σ E R →
      HandlerWithResponseFn σ E R
  | 0, _, handlerFn => handlerFn
  | i + 1, h, handlerFn =>
    wrappedHandlerWithResponseFn.loop middlewares i (Nat.le_of_succ_le h)
      ((middlewares.get ⟨i, h⟩).Wrap handlerFn)

/-- The function `wrappedHandlerWithResponseFn(handler, middlewares...)`. -/
def wrappedHandlerWithResponseFn {σ E R : Type} (handler : HandlerWithResponse σ E R)
    (middlewares : List (WithResponse σ E R)) : HandlerWithResponseFn σ E R :=
  wrappedHandlerWithResponseFn.loop middlewares middlewares.length (Nat.le_refl _)
    handler.Handle

/-- The composition the specification describes: the right fold
`w0.Wrap(w1.Wrap(... wn-1.Wrap(h) ...))`. -/
def specCompose {σ E : Type} (h : HandlerFn σ E) (ws : List (NoResponse σ E)) :
    HandlerFn σ E :=
  ws.foldr (fun w current => w.Wrap current) h

/-- The right fold of the specification for the response-bearing shape. -/
def specComposeWithResponse {σ E R : Type} (h : HandlerWithResponseFn σ E R)
    (ws : List (WithResponse σ E R)) : HandlerWithResponseFn σ E R :=
  ws.foldr (fun w current => w.Wrap current) h

/-! ## `lambda/lambda_test.go`: the wrappers and handlers of the tests -/

/-- The test wrapper `idWrapperMiddleware{id}`: passes `append(event, id)` to `next`. -/
def idWrapperMiddleware {σ : Type} (id : String) : NoResponse σ (List String) where
  Wrap := fun next => fun ctx event => next ctx (event ++ [id])

/-- The test wrapper `idWrapperMiddlewareWithResponse{id}`: passes `append(event, id)` to
`next` and returns `append(resp, id)` with the error of `next`. -/
def idWrapperMiddlewareWithResponse {σ : Type} (id : String) :
    WithResponse σ (List String) (List String) where
  Wrap := fun next => fun ctx event s =>
    let out := next ctx (event ++ [id]) s
    ((out.1.1 ++ [id], out.1.2), out.2)

/-- A call recorder in the manner of `mockHandler.Handle` (`m.Called(ctx, event)`): the world
is extended with the list of the arguments of every call made so far, and each call appends
its own arguments before doing what `next` does. -/
def recordCalls {σ E : Type} (next : HandlerFn σ E) : HandlerFn (List (Context × E) × σ) E :=
  fun ctx event w =>
    let out := next ctx event w.2
    (out.1, (w.1 ++ [(ctx, event)], out.2))

/-- The call recorder for the response-bearing shape, as `mockHandlerWithResponse.Handle`. -/
def recordCallsWithResponse {σ E R : Type} (next : HandlerWithResponseFn σ E R) :
    HandlerWithResponseFn (List (Context × E) × σ) E R :=
  fun ctx event w =>
    let out := next ctx event w.2
    (out.1, (w.1 ++ [(ctx, event)], out.2))

/-! ## Wrappers and handlers that record an effect trace -/

/-- A wrapper that records the effect `pre`, calls `next` once and then records the effect
`post`; the world is the trace of the effects recorded so far. -/
def traceWrapper {L E : Type} (pre post : L) : NoResponse (List L) E where
  Wrap := fun next => fun ctx event t =>
    let out := next ctx event (t ++ [pre])
    (out.1, out.2 ++ [post])

/-- The response-bearing wrapper that records `pre`, calls `next` once, records `post`. -/
def traceWrapperWithResponse {L E R : Type} (pre post : L) : WithResponse (List L) E R where
  Wrap := fun next => fun ctx event t =>
    let out := next ctx event (t ++ [pre])
    (out.1, out.2 ++ [post])

/-- A handler that records the effect `eff` and returns `ret`, which may depend on the
context, the event and the trace it was entered with. -/
def traceHandler {L E : Type} (eff : L) (ret : Context → E → List L → GoError) :
    Handler (List L) E where
  Handle := fun ctx event t => (ret ctx event t, t ++ [eff])

/-- The response-bearing handler that records the effect `eff` and returns `ret`. -/
def traceHandlerWithResponse {L E R : Type} (eff : L)
    (ret : Context → E → List L → R × GoError) : HandlerWithResponse (List L) E R where
  Handle := fun ctx event t => (ret ctx event t, t ++ [eff])

/-! ## `events`: the API Gateway proxy shapes -/

/-- A Go `map[string]V` that is not nil, as the function from keys to the value stored. -/
abbrev GoMap (V : Type) := String → Option V

/-- The empty map literal `map[string]V{}`. -/
def GoMap.empty {V : Type} : GoMap V := fun _ => none

/-- The assignment `m[key] = val`. -/
def GoMap.set {V : Type} (m : GoMap V) (key : String) (val : V) : GoMap V :=
  fun k => if k = key then some val else m k

/-- The struct `events.APIGatewayProxyRequestContext`: the fields the repository reads,
and `Stage`. -/
structure APIGatewayProxyRequestContext where
  Stage : String
  DomainName : String
  RequestID : String
  Path : String
  HTTPMethod : String
  deriving DecidableEq, Repr

/-- The struct `events.APIGatewayProxyRequest`: its request context and the top-level
fields that share a name with one of the request context. -/
structure APIGatewayProxyRequest where
  Path : String
  HTTPMethod : String
  RequestContext : APIGatewayProxyRequestContext
  Body : String
  deriving DecidableEq, Repr

/-- The struct `events.APIGatewayProxyResponse`; a map field is `none` when it is nil. -/
structure APIGatewayProxyResponse where
  StatusCode : Int
  Headers : Option (GoMap String)
  MultiValueHeaders : Option (GoMap (List String))
  Body : String
  IsBase64Encoded : Bool

/-- An event of a generic type `E`, by its dynamic type: the type assertion
`any(event).(events.APIGatewayProxyRequest)` succeeds on `apigwV1` and fails on `other`. -/
inductive DynEvent (α : Type) where
  | apigwV1 (request : APIGatewayProxyRequest)
  | other (value : α)
  deriving DecidableEq, Repr

/-- A response of a generic type `R`, by its dynamic type: the type assertion
`any(response).(events.APIGatewayProxyResponse)` succeeds on `apigwV1` and fails on `other`. -/
inductive DynResponse (β : Type) where
  | apigwV1 (response : APIGatewayProxyResponse)
  | other (value : β)

/-! ## `lambda/middleware/context.go` -/

/-- The function `contextFromEvent(ctx, event)`. -/
def contextFromEvent {α : Type} (ctx : Context) (event : DynEvent α) : String × Context :=
  -- Extract request ids
  let ids : String × String :=
    match lambdacontextFromContext ctx with
    | some lambdaCtx => (lambdaCtx.AwsRequestID, lambdaCtx.AwsRequestID)
    | none => ("", "")
  let lambdaRequestId := ids.2
  -- Event specific context
  let specific : String × List Field :=
    match event with
    | .apigwV1 apigwV1Event =>
      let id := apigwV1Event.RequestContext.RequestID
      let assigned : String × String := if id ≠ "" then (id, id) else (ids.1, "")
      (assigned.1,
        [logctxString "amzn_request_id" assigned.2,
         logctxString "request_method" apigwV1Event.RequestContext.HTTPMethod,
         logctxString "request_domain" apigwV1Event.RequestContext.DomainName,
         logctxString "request_path" apigwV1Event.RequestContext.Path])
    | .other _ => (ids.1, [])
  let requestId := specific.1
  let additionalCtx := specific.2
  -- Set context
  let ctx1 := logctxAdd ctx
    [logctxString "request_id" requestId, logctxString "lambda_request_id" lambdaRequestId]
  let ctx2 := if additionalCtx.length > 0 then logctxAdd ctx1 additionalCtx else ctx1
  (requestId, ctx2)

/-- The function `transformResponse(response, requestId)`.  The Go code stores the header
into the map the response refers to; the embedding gives the contents of that map as the
returned response holds it. -/
def transformResponse {β : Type} (response : DynResponse β) (requestId : String) :
    DynResponse β :=
  match response with
  | .apigwV1 apigwV1Response =>
    match apigwV1Response.Headers with
    | some headers =>
      .apigwV1 { apigwV1Response with Headers := some (headers.set "x-request-id" requestId) }
    | none => .apigwV1 apigwV1Response
  | .other value => .other value

/-- The method `contextNoResponse[E].Wrap`. -/
def contextNoResponse.Wrap {σ α : Type} (next : HandlerFn σ (DynEvent α)) :
    HandlerFn σ (DynEvent α) :=
  fun ctx event =>
    -- Get context from event
    let ctx1 := (contextFromEvent ctx event).2
    -- return response
    next ctx1 event

/-- The constructor `NewContext[E]()`. -/
def NewContext {σ α : Type} : NoResponse σ (DynEvent α) where
  Wrap := contextNoResponse.Wrap

/-- The method `contextWithResponse[E, R].Wrap`. -/
def contextWithResponse.Wrap {σ α β : Type}
    (next : HandlerWithResponseFn σ (DynEvent α) (DynResponse β)) :
    HandlerWithResponseFn σ (DynEvent α) (DynResponse β) :=
  fun ctx event s =>
    -- Get context from event
    let derived := contextFromEvent ctx event
    -- Get response
    let out := next derived.2 event s
    -- Transform response
    let response := transformResponse out.1.1 derived.1
    -- Return response
    ((response, out.1.2), out.2)

/-- The constructor `NewContextWithResponse[E, R]()`. -/
def NewContextWithResponse {σ α β : Type} :
    WithResponse σ (DynEvent α) (DynResponse β) where
  Wrap := contextWithResponse.Wrap

/-! ## `lambda/middleware/context_test.go`: the values of the tests -/

/-- The ambient context of the tests:
`lambdacontext.NewContext(context.Background(), &LambdaContext{AwsRequestID: "lambda-request-id-123"})`. -/
def testLambdaCtx : Context :=
  lambdacontextNewContext background ⟨"lambda-request-id-123"⟩

/-- The API Gateway event of `Test_contextFromEvent`. -/
def testApigwEvent : APIGatewayProxyRequest where
  Path := ""
  HTTPMethod := ""
  RequestContext :=
    { Stage := "", DomainName := "example.com", RequestID := "amzn-request-id-123",
      Path := "/test/path", HTTPMethod := "POST" }
  Body := ""

/-- An API Gateway event as `testApigwEvent`, but with an empty `RequestContext.RequestID`. -/
def apigwEventNoRequestID : APIGatewayProxyRequest where
  Path := "/test/path"
  HTTPMethod := "POST"
  RequestContext :=
    { Stage := "", DomainName := "example.com", RequestID := "",
      Path := "/test/path", HTTPMethod := "POST" }
  Body := ""

/-- The response of `Test_transformResponse`:
`events.APIGatewayProxyResponse{Headers: map[string]string{}}`. -/
def testApigwResponse : APIGatewayProxyResponse where
  StatusCode := 0
  Headers := some GoMap.empty
  MultiValueHeaders := none
  Body := ""
  IsBase64Encoded := false

/-- A response with a nil `Headers` map: `events.APIGatewayProxyResponse{StatusCode: 200}`. -/
def apigwResponseNilHeaders : APIGatewayProxyResponse where
  StatusCode := 200
  Headers := none
  MultiValueHeaders := none
  Body := ""
  IsBase64Encoded := false

/-! ## `clock` and `metrics`: the collaborators of the metrics wrapper -/

/-- A `time.Time` instant, counted in nanoseconds. -/
abbrev Time := Int

/-- A `time.Duration`, counted in nanoseconds. -/
abbrev Duration := Int

/-- The interface `clock.Clock` as `metrics.go` uses it, run against a world `σ`. -/
structure Clock (σ : Type) where
  Now : σ → Time × σ
  Since : Time → σ → Duration × σ

/-- The library call `clock.NewFixed(t)`: `Now()` is always the instant `t`, `Since(s)` is
`t` minus `s`, and neither touches the world. -/
def clockNewFixed {σ : Type} (t : Time) : Clock σ where
  Now := fun s => (t, s)
  Since := fun start s => (t - start, s)

/-- The `Val` of a `metrics.Field`, of Go type `any`, by the dynamic types `metrics.go`
stores in it: the event, a `time.Duration`, an `int`. -/
inductive MetricVal (E : Type) where
  | event (e : E)
  | duration (d : Duration)
  | int (n : Int)
  deriving DecidableEq, Repr

/-- The struct `metrics.Field`. -/
structure MetricsField (E : Type) where
  Name : String
  Val : MetricVal E
  deriving DecidableEq, Repr

/-- The interface `metrics.Outputter`, run against a world `σ`. -/
structure Outputter (σ E : Type) where
  Output : Context → String → List (MetricsField E) → σ → σ

/-! ## `lambda/middleware/metrics.go` -/

/-- The constant `requestStartedMsg`. -/
def requestStartedMsg : String := "Request started"

/-- The constant `requestCompleteMsg`. -/
def requestCompleteMsg : String := "Request complete"

/-- The struct `metricsNoResponse[E]`. -/
structure metricsNoResponse (σ E : Type) where
  clock : Clock σ
  outputter : Outputter σ E

/-- The method `metricsNoResponse[E].Wrap`. -/
def metricsNoResponse.Wrap {σ E : Type} (m : metricsNoResponse σ E) (next : HandlerFn σ E) :
    HandlerFn σ E :=
  fun ctx event s =>
    -- Log when the request starts
    let start := m.clock.Now s
    let s1 := m.outputter.Output ctx requestStartedMsg [⟨"event", .event event⟩] start.2
    let out := next ctx event s1
    -- Log when the request completes
    let since := m.clock.Since start.1 out.2
    let s2 := m.outputter.Output ctx requestCompleteMsg [⟨"duration", .duration since.1⟩]
      since.2
    -- Return response
    (out.1, s2)

/-- The constructor `NewMetrics[E](outputter)`; `systemClock` is the clock that the library
call `clock.NewSystem()` returns. -/
def NewMetrics {σ E : Type} (systemClock : Clock σ) (outputter : Outputter σ E) :
    NoResponse σ E where
  Wrap := metricsNoResponse.Wrap { clock := systemClock, outputter := outputter }

/-- The struct `metricsWithResponse[E, R]`. -/
structure metricsWithResponse (σ E : Type) where
  clock : Clock σ
  outputter : Outputter σ E

/-- The method `metricsWithResponse[E, R].Wrap`. -/
def metricsWithResponse.Wrap {σ E β : Type} (m : metricsWithResponse σ E)
    (next : HandlerWithResponseFn σ E (DynResponse β)) :
    HandlerWithResponseFn σ E (DynResponse β) :=
  fun ctx event s =>
    -- Log when the request starts
    let start := m.clock.Now s
    let s1 := m.outputter.Output ctx requestStartedMsg [⟨"event", .event event⟩] start.2
    let out := next ctx event s1
    -- Log when the request completes
    let since := m.clock.Since start.1 out.2
    let f : List (MetricsField E) := [⟨"duration", .duration since.1⟩]
    let f1 : List (MetricsField E) :=
      match out.1.1 with
      | .apigwV1 apigwV1Response => f ++ [⟨"status_code", .int apigwV1Response.StatusCode⟩]
      | .other _ => f
    let s2 := m.outputter.Output ctx requestCompleteMsg f1 since.2
    -- Return response
    (out.1, s2)

/-- The constructor `NewMetricsWithResponse[E, R](outputter)`; `systemClock` is the clock
that the library call `clock.NewSystem()` returns. -/
def NewMetricsWithResponse {σ E β : Type} (systemClock : Clock σ) (outputter : Outputter σ E) :
    WithResponse σ E (DynResponse β) where
  Wrap := metricsWithResponse.Wrap { clock := systemClock, outputter := outputter }

/-! ## `lambda/middleware/middleware.go`: the common wrapper lists -/

/-- The function `Common[E](outputter)`. -/
def Common {σ α : Type} (systemClock : Clock σ) (outputter : Outputter σ (DynEvent α)) :
    List (NoResponse σ (DynEvent α)) :=
  [NewContext, NewMetrics systemClock outputter]

/-- The function `CommonWithResponse[E, R](outputter)`. -/
def CommonWithResponse {σ α β : Type} (systemClock : Clock σ)
    (outputter : Outputter σ (DynEvent α)) :
    List (WithResponse σ (DynEvent α) (DynResponse β)) :=
  [NewContextWithResponse, NewMetricsWithResponse systemClock outputter]

/-! ## A log of what the metrics wrapper does -/

/-- One step of an invocation, as a mock in the manner of `mockOutputter` would record it:
a reading of the clock, an `Output` call with its arguments, or a call of `next`. -/
inductive Action (E : Type) where
  | clockNow (t : Time)
  | clockSince (start : Time) (d : Duration)
  | output (ctx : Context) (label : String) (fields : List (MetricsField E))
  | next (ctx : Context) (event : E)
  deriving DecidableEq, Repr

/-- The clock `c`, with every reading appended to the log. -/
def logClock {σ E : Type} (c : Clock σ) : Clock (List (Action E) × σ) where
  Now := fun w =>
    let r := c.Now w.2
    (r.1, (w.1 ++ [.clockNow r.1], r.2))
  Since := fun start w =>
    let r := c.Since start w.2
    (r.1, (w.1 ++ [.clockSince start r.1], r.2))

/-- The outputter `o`, with every `Output` call appended to the log. -/
def logOutputter {σ E : Type} (o : Outputter σ E) : Outputter (List (Action E) × σ) E where
  Output := fun ctx label fields w =>
    (w.1 ++ [.output ctx label fields], o.Output ctx label fields w.2)

/-- The function `next`, with every call appended to the log. -/
def logNext {σ E : Type} (next : HandlerFn σ E) : HandlerFn (List (Action E) × σ) E :=
  fun ctx event w =>
    let out := next ctx event w.2
    (out.1, (w.1 ++ [.next ctx event], out.2))

/-- The response-bearing function `next`, with every call appended to the log. -/
def logNextWithResponse {σ E R : Type} (next : HandlerWithResponseFn σ E R) :
    HandlerWithResponseFn (List (Action E) × σ) E R :=
  fun ctx event w =>
    let out := next ctx event w.2
    (out.1, (w.1 ++ [.next ctx event], out.2))

/-- The calls of `next` in a log, with their arguments, in order. -/
def callsOf {E : Type} (log : List (Action E)) : List (Context × E) :=
  log.filterMap fun a =>
    match a with
    | .next ctx event => some (ctx, event)
    | _ => none

/-! ## `apigw/response` -/

/-- The function `New(status, body)` of `apigw/response/response.go`. -/
def New (status : Int) (body : String) : APIGatewayProxyResponse where
  StatusCode := status
  Headers := some GoMap.empty
  MultiValueHeaders := none
  Body := body
  IsBase64Encoded := false

/-- The function `NewJson(status, body)` of `apigw/response/response.go`.  The body, of Go
type `any`, is `none` when it is nil; `jsonMarshal` is the library call `json.Marshal` on the
dynamic type of the body, returning the text or the error. -/
def NewJson {B : Type} (jsonMarshal : B → Except String String) (status : Int)
    (body : Option B) : APIGatewayProxyResponse :=
  let res : APIGatewayProxyResponse :=
    { StatusCode := status
      Headers := some GoMap.empty
      MultiValueHeaders := none
      Body := ""
      IsBase64Encoded := false }
  match body with
  | some b =>
    match jsonMarshal b with
    | .ok j =>
      { res with
        Body := j
        Headers := res.Headers.map fun headers => headers.set "Content-Type" "application/json" }
    | .error _ => res
  | none => res

/-- The struct `responseError` of `apigw/response/error.go`. -/
structure responseError where
  Code : Int
  Message : String
  deriving DecidableEq, Repr

/-- The library call `json.Marshal` on a `responseError`: the object of its two fields in
declaration order under the names of their tags, `code` and `message`; an `int` is written
in decimal and `quote` is the JSON string that `encoding/json` writes for a Go string.
It never returns an error. -/
def jsonMarshalResponseError (quote : String → String) (v : responseError) :
    Except String String :=
  .ok ("\x7b\"code\":" ++ toString v.Code ++ ",\"message\":" ++ quote v.Message ++ "\x7d")

/-- The function `NewError(status, msg)` of `apigw/response/error.go`. -/
def NewError (quote : String → String) (status : Int) (msg : String) :
    APIGatewayProxyResponse :=
  NewJson (jsonMarshalResponseError quote) status
    (some { Code := status, Message := msg })

/-! ## `apigw/response/response_test.go`: the values of the tests -/

/-- The struct `testBody` of `TestNewJson`. -/
structure testBody where
  Num : Int
  Str : String
  deriving DecidableEq, Repr

/-- The JSON string of a Go string in which no character needs an escape. -/
def quotePlain (s : String) : String := "\"" ++ s ++ "\""

/-- The library call `json.Marshal` on a `testBody`: the object of its two fields under the
names of their tags, `num` and `str`. -/
def jsonMarshalTestBody (quote : String → String) (v : testBody) : Except String String :=
  .ok ("\x7b\"num\":" ++ toString v.Num ++ ",\"str\":" ++ quote v.Str ++ "\x7d")

/-- The library call `json.Marshal` on a channel, a type `encoding/json` does not support. -/
def jsonMarshalChan (_ : Unit) : Except String String :=
  .error "json: unsupported type: chan int"

/-! ## A failing handler behind the common chains -/

/-- An outputter that drops every record. -/
def discardOutputter {σ E : Type} : Outputter σ E where
  Output := fun _ _ _ s => s

/-- A handler that returns the error `error`. -/
def failingHandler : Handler Unit (DynEvent String) where
  Handle := fun _ _ s => (some "error", s)

/-- A handler that returns the gateway response of `Test_transformResponse` and the error
`error`. -/
def failingHandlerWithResponse :
    HandlerWithResponse Unit (DynEvent String) (DynResponse String) where
  Handle := fun _ _ s => ((DynResponse.apigwV1 testApigwResponse, some "error"), s)

/-! ## Chain composition -/

theorem wrappedHandlerFn_loop_eq_take {σ E : Type} (ws : List (NoResponse σ E)) :
    ∀ (n : Nat) (hn : n ≤ ws.length) (fn : HandlerFn σ E),
      wrappedHandlerFn.loop ws n hn fn = specCompose fn (ws.take n) := by
  intro n
  induction n with
  | zero => intro hn fn; simp [wrappedHandlerFn.loop, specCompose]
  | succ i ih =>
    intro hn fn
    have hi : i < ws.length := hn
    rw [wrappedHandlerFn.loop, ih]
    simp only [specCompose]
    rw [List.take_succ, List.foldr_append, List.getElem?_eq_getElem hi]
    rfl

theorem wrappedHandlerWithResponseFn_loop_eq_take {σ E R : Type}
    (ws : List (WithResponse σ E R)) :
    ∀ (n : Nat) (hn : n ≤ ws.length) (fn : HandlerWithResponseFn σ E R),
      wrappedHandlerWithResponseFn.loop ws n hn fn
        = specComposeWithResponse fn (ws.take n) := by
  intro n
  induction n with
  | zero => intro hn fn; simp [wrappedHandlerWithResponseFn.loop, specComposeWithResponse]
  | succ i ih =>
    intro hn fn
    have hi : i < ws.length := hn
    rw [wrappedHandlerWithResponseFn.loop, ih]
    simp only [specComposeWithResponse]
    rw [List.take_succ, List.foldr_append, List.getElem?_eq_getElem hi]
    rfl

theorem wrappedHandlerFn_eq_specCompose {σ E : Type} (h : Handler σ E)
    (ws : List (NoResponse σ E)) :
    wrappedHandlerFn h ws = specCompose h.Handle ws := by
  unfold wrappedHandlerFn
  rw [wrappedHandlerFn_loop_eq_take, List.take_length]

theorem wrappedHandlerWithResponseFn_eq_specCompose {σ E R : Type}
    (h : HandlerWithResponse σ E R) (ws : List (WithResponse σ E R)) :
    wrappedHandlerWithResponseFn h ws = specComposeWithResponse h.Handle ws := by
  unfold wrappedHandlerWithResponseFn
  rw [wrappedHandlerWithResponseFn_loop_eq_take, List.take_length]

/-- C1: for every handler and every ordered middleware list, `wrappedHandlerFn` and
`wrappedHandlerWithResponseFn` equal the right fold `w0.Wrap(w1.Wrap(... wn-1.Wrap(h.Handle)))`:
the last-listed wrapper is applied to the handler first, the first-listed is outermost. -/
theorem C1_wrapped_eq_right_fold {σ E R : Type} (h : Handler σ E)
    (hr : HandlerWithResponse σ E R) (ws : List (NoResponse σ E))
    (wsr : List (WithResponse σ E R)) :
    wrappedHandlerFn h ws = ws.foldr (fun w current => w.Wrap current) h.Handle
      ∧ wrappedHandlerWithResponseFn hr wsr
          = wsr.foldr (fun w current => w.Wrap current) hr.Handle :=
  ⟨wrappedHandlerFn_eq_specCompose h ws, wrappedHandlerWithResponseFn_eq_specCompose hr wsr⟩

/-! ## Execution order -/

theorem traceWrapper_Wrap {L E : Type} (pre post : L) (next : HandlerFn (List L) E)
    (ctx : Context) (event : E) (t : List L) :
    (traceWrapper pre post).Wrap next ctx event t
      = ((next ctx event (t ++ [pre])).1, (next ctx event (t ++ [pre])).2 ++ [post]) := rfl

theorem traceWrapperWithResponse_Wrap {L E R : Type} (pre post : L)
    (next : HandlerWithResponseFn (List L) E R) (ctx : Context) (event : E) (t : List L) :
    (traceWrapperWithResponse pre post).Wrap next ctx event t
      = ((next ctx event (t ++ [pre])).1, (next ctx event (t ++ [pre])).2 ++ [post]) := rfl

theorem specCompose_traceWrapper {L E : Type} (h : HandlerFn (List L) E) (ctx : Context)
    (event : E) :
    ∀ (ws : List (L × L)) (t : List L),
      specCompose h (ws.map fun w => traceWrapper w.1 w.2) ctx event t
        = ((h ctx event (t ++ ws.map Prod.fst)).1,
           (h ctx event (t ++ ws.map Prod.fst)).2 ++ (ws.map Prod.snd).reverse) := by
  intro ws
  induction ws with
  | nil => intro t; simp [specCompose]
  | cons w ws ih =>
    intro t
    have step := ih (t ++ [w.1])
    simp only [specCompose] at step
    simp only [specCompose, List.map_cons, List.foldr_cons, traceWrapper_Wrap, step]
    simp

theorem specComposeWithResponse_traceWrapper {L E R : Type}
    (h : HandlerWithResponseFn (List L) E R) (ctx : Context) (event : E) :
    ∀ (ws : List (L × L)) (t : List L),
      specComposeWithResponse h (ws.map fun w => traceWrapperWithResponse w.1 w.2) ctx event t
        = ((h ctx event (t ++ ws.map Prod.fst)).1,
           (h ctx event (t ++ ws.map Prod.fst)).2 ++ (ws.map Prod.snd).reverse) := by
  intro ws
  induction ws with
  | nil => intro t; simp [specComposeWithResponse]
  | cons w ws ih =>
    intro t
    have step := ih (t ++ [w.1])
    simp only [specComposeWithResponse] at step
    simp only [specComposeWithResponse, List.map_cons, List.foldr_cons,
      traceWrapperWithResponse_Wrap, step]
    simp

/-- C2: for wrappers that each record a pre effect, call next once and record a post effect,
one invocation of the composed function extends the trace by
`w0.pre, ..., wn-1.pre, h, wn-1.post, ..., w0.post`, in both compositions. -/
theorem C2_effect_trace_lifo {L E R : Type} (ws : List (L × L)) (eff : L)
    (ret : Context → E → List L → GoError) (retr : Context → E → List L → R × GoError)
    (ctx : Context) (event : E) (t : List L) :
    wrappedHandlerFn (traceHandler eff ret) (ws.map fun w => traceWrapper w.1 w.2) ctx event t
        = (ret ctx event (t ++ ws.map Prod.fst),
           t ++ ws.map Prod.fst ++ [eff] ++ (ws.map Prod.snd).reverse)
      ∧ wrappedHandlerWithResponseFn (traceHandlerWithResponse eff retr)
          (ws.map fun w => traceWrapperWithResponse w.1 w.2) ctx event t
        = (retr ctx event (t ++ ws.map Prod.fst),
           t ++ ws.map Prod.fst ++ [eff] ++ (ws.map Prod.snd).reverse) := by
  constructor
  · rw [wrappedHandlerFn_eq_specCompose, specCompose_traceWrapper]
    simp [traceHandler]
  · rw [wrappedHandlerWithResponseFn_eq_specCompose, specComposeWithResponse_traceWrapper]
    simp [traceHandlerWithResponse]

/-! ## The identity-tagging wrappers of the tests -/

theorem idWrapperMiddleware_Wrap {σ : Type} (id : String) (next : HandlerFn σ (List String))
    (ctx : Context) (event : List String) (s : σ) :
    (idWrapperMiddleware id).Wrap next ctx event s = next ctx (event ++ [id]) s := rfl

theorem idWrapperMiddlewareWithResponse_Wrap {σ : Type} (id : String)
    (next : HandlerWithResponseFn σ (List String) (List String)) (ctx : Context)
    (event : List String) (s : σ) :
    (idWrapperMiddlewareWithResponse id).Wrap next ctx event s
      = (((next ctx (event ++ [id]) s).1.1 ++ [id], (next ctx (event ++ [id]) s).1.2),
         (next ctx (event ++ [id]) s).2) := rfl

theorem specCompose_idWrapper {σ : Type} (h : HandlerFn σ (List String)) (ctx : Context) :
    ∀ (tags event : List String) (s : σ),
      specCompose h (tags.map idWrapperMiddleware) ctx event s = h ctx (event ++ tags) s := by
  intro tags
  induction tags with
  | nil => intro event s; simp [specCompose]
  | cons tag tags ih =>
    intro event s
    have step := ih (event ++ [tag]) s
    simp only [specCompose] at step
    simp only [specCompose, List.map_cons, List.foldr_cons, idWrapperMiddleware_Wrap, step]
    simp

theorem specComposeWithResponse_idWrapper {σ : Type}
    (h : HandlerWithResponseFn σ (List String) (List String)) (ctx : Context) :
    ∀ (tags event : List String) (s : σ),
      specComposeWithResponse h (tags.map idWrapperMiddlewareWithResponse) ctx event s
        = (((h ctx (event ++ tags) s).1.1 ++ tags.reverse, (h ctx (event ++ tags) s).1.2),
           (h ctx (event ++ tags) s).2) := by
  intro tags
  induction tags with
  | nil => intro event s; simp [specComposeWithResponse]
  | cons tag tags ih =>
    intro event s
    have step := ih (event ++ [tag]) s
    simp only [specComposeWithResponse] at step
    simp only [specComposeWithResponse, List.map_cons, List.foldr_cons,
      idWrapperMiddlewareWithResponse_Wrap, step]
    simp

/-- C3: composing the identity-tagging wrappers for `t0..tn-1` in that order makes the
handler be invoked exactly once, with `e ++ [t0, ..., tn-1]`; in the with-response variant a
handler result `(r, err)` comes back as `(r ++ [tn-1, ..., t0], err)`. -/
theorem C3_id_wrappers_tag_event_and_response {σ : Type} (tags event : List String)
    (h : Handler σ (List String)) (hr : HandlerWithResponse σ (List String) (List String))
    (ctx : Context) (calls : List (Context × List String)) (s : σ) :
    wrappedHandlerFn ⟨recordCalls h.Handle⟩ (tags.map idWrapperMiddleware) ctx event (calls, s)
        = ((h.Handle ctx (event ++ tags) s).1,
           (calls ++ [(ctx, event ++ tags)], (h.Handle ctx (event ++ tags) s).2))
      ∧ wrappedHandlerWithResponseFn ⟨recordCallsWithResponse hr.Handle⟩
          (tags.map idWrapperMiddlewareWithResponse) ctx event (calls, s)
        = (((hr.Handle ctx (event ++ tags) s).1.1 ++ tags.reverse,
            (hr.Handle ctx (event ++ tags) s).1.2),
           (calls ++ [(ctx, event ++ tags)], (hr.Handle ctx (event ++ tags) s).2)) := by
  constructor
  · rw [wrappedHandlerFn_eq_specCompose, specCompose_idWrapper]
    rfl
  · rw [wrappedHandlerWithResponseFn_eq_specCompose, specComposeWithResponse_idWrapper]
    rfl

/-- C4: with an empty middleware list both compositions are the handler's own `Handle`:
the same response and error for every context and event, and the handler is invoked exactly
once with the arguments the composed function received. -/
theorem C4_empty_list_is_handler {σ E R : Type} (h : Handler σ E)
    (hr : HandlerWithResponse σ E R) (ctx : Context) (event : E)
    (calls : List (Context × E)) (s : σ) :
    wrappedHandlerFn h [] = h.Handle
      ∧ wrappedHandlerWithResponseFn hr [] = hr.Handle
      ∧ wrappedHandlerFn ⟨recordCalls h.Handle⟩ [] ctx event (calls, s)
          = ((h.Handle ctx event s).1, (calls ++ [(ctx, event)], (h.Handle ctx event s).2))
      ∧ wrappedHandlerWithResponseFn ⟨recordCallsWithResponse hr.Handle⟩ [] ctx event (calls, s)
          = ((hr.Handle ctx event s).1, (calls ++ [(ctx, event)], (hr.Handle ctx event s).2)) :=
  ⟨rfl, rfl, rfl, rfl⟩

/-! ## The context wrapper -/

/-- C5: the function returned by `contextNoResponse.Wrap(next)` invokes `next` exactly once,
with the context produced by `contextFromEvent(ctx, event)` and the event unchanged, and
returns exactly the error `next` returned. -/
theorem C5_context_wrap_calls_next_once {σ α : Type} (next : HandlerFn σ (DynEvent α))
    (ctx : Context) (event : DynEvent α) (calls : List (Context × DynEvent α)) (s : σ) :
    (NewContext.Wrap next) ctx event s = next (contextFromEvent ctx event).2 event s
      ∧ (NewContext.Wrap (recordCalls next)) ctx event (calls, s)
          = ((next (contextFromEvent ctx event).2 event s).1,
             (calls ++ [((contextFromEvent ctx event).2, event)],
              (next (contextFromEvent ctx event).2 event s).2)) :=
  ⟨rfl, rfl⟩

/-- C6: for an event that is not an API Gateway proxy request, `contextFromEvent` attaches
exactly the fields `request_id` and `lambda_request_id`, in that order, both the ambient
Lambda request id when the context carries a Lambda context and both empty when it does
not, and returns that same value. -/
theorem C6_non_gateway_event_two_fields {α : Type} (value : α) (lc : LambdaContext)
    (fields : List Field) :
    contextFromEvent ⟨some lc, fields⟩ (DynEvent.other value)
        = (lc.AwsRequestID,
           ⟨some lc, fields ++ [logctxString "request_id" lc.AwsRequestID,
                                logctxString "lambda_request_id" lc.AwsRequestID]⟩)
      ∧ contextFromEvent ⟨none, fields⟩ (DynEvent.other value)
        = ("",
           ⟨none, fields ++ [logctxString "request_id" "",
                             logctxString "lambda_request_id" ""]⟩) :=
  ⟨rfl, rfl⟩

/-- C7: for an API Gateway proxy request whose `RequestContext.RequestID` is not empty,
`contextFromEvent` returns that id and attaches six fields in this order: `request_id` (the
event's id), `lambda_request_id` (the ambient Lambda request id, or empty),
`amzn_request_id` (the event's id), `request_method`, `request_domain`, `request_path`. -/
theorem C7_gateway_event_six_fields {α : Type} (request : APIGatewayProxyRequest)
    (lc : LambdaContext) (fields : List Field)
    (hid : request.RequestContext.RequestID ≠ "") :
    contextFromEvent ⟨some lc, fields⟩ (DynEvent.apigwV1 request : DynEvent α)
        = (request.RequestContext.RequestID,
           ⟨some lc, fields ++
             [logctxString "request_id" request.RequestContext.RequestID,
              logctxString "lambda_request_id" lc.AwsRequestID,
              logctxString "amzn_request_id" request.RequestContext.RequestID,
              logctxString "request_method" request.RequestContext.HTTPMethod,
              logctxString "request_domain" request.RequestContext.DomainName,
              logctxString "request_path" request.RequestContext.Path]⟩)
      ∧ contextFromEvent ⟨none, fields⟩ (DynEvent.apigwV1 request : DynEvent α)
        = (request.RequestContext.RequestID,
           ⟨none, fields ++
             [logctxString "request_id" request.RequestContext.RequestID,
              logctxString "lambda_request_id" "",
              logctxString "amzn_request_id" request.RequestContext.RequestID,
              logctxString "request_method" request.RequestContext.HTTPMethod,
              logctxString "request_domain" request.RequestContext.DomainName,
              logctxString "request_path" request.RequestContext.Path]⟩) := by
  constructor <;> simp [contextFromEvent, lambdacontextFromContext, logctxAdd, hid]

/-- The gateway case of `Test_contextFromEvent`, through C7. -/
theorem C7_gateway_event_six_fields_witness :
    testApigwEvent.RequestContext.RequestID ≠ ""
      ∧ contextFromEvent testLambdaCtx (DynEvent.apigwV1 testApigwEvent : DynEvent String)
        = ("amzn-request-id-123",
           ⟨some ⟨"lambda-request-id-123"⟩,
            [logctxString "request_id" "amzn-request-id-123",
             logctxString "lambda_request_id" "lambda-request-id-123",
             logctxString "amzn_request_id" "amzn-request-id-123",
             logctxString "request_method" "POST",
             logctxString "request_domain" "example.com",
             logctxString "request_path" "/test/path"]⟩) :=
  ⟨by decide,
   (C7_gateway_event_six_fields testApigwEvent ⟨"lambda-request-id-123"⟩ [] (by decide)).1⟩

/-- C8 fails as stated: for a gateway event with an empty `RequestContext.RequestID` under an
ambient Lambda request id, the returned id and the `request_id` field are the ambient id, not
the event's own. -/
theorem C8_empty_request_id_keeps_ambient :
    (contextFromEvent testLambdaCtx
        (DynEvent.apigwV1 apigwEventNoRequestID : DynEvent String)).1
        ≠ apigwEventNoRequestID.RequestContext.RequestID
      ∧ (contextFromEvent testLambdaCtx
          (DynEvent.apigwV1 apigwEventNoRequestID : DynEvent String)).1
        = "lambda-request-id-123"
      ∧ logctxGet (contextFromEvent testLambdaCtx
          (DynEvent.apigwV1 apigwEventNoRequestID : DynEvent String)).2
        = [logctxString "request_id" "lambda-request-id-123",
           logctxString "lambda_request_id" "lambda-request-id-123",
           logctxString "amzn_request_id" "",
           logctxString "request_method" "POST",
           logctxString "request_domain" "example.com",
           logctxString "request_path" "/test/path"] := by
  decide

/-- C8 (amended): for a gateway event, the canonical request id (the returned id and the
`request_id` field, the first field attached) is the event's `RequestContext.RequestID` when
that is not empty, overriding the ambient Lambda request id; when it is empty the ambient
Lambda request id (empty without a Lambda context) stays the canonical one. -/
theorem C8_canonical_request_id {α : Type} (request : APIGatewayProxyRequest)
    (lam : Option LambdaContext) (fields : List Field) :
    (contextFromEvent ⟨lam, fields⟩ (DynEvent.apigwV1 request : DynEvent α)).1
        = (if request.RequestContext.RequestID ≠ "" then request.RequestContext.RequestID
           else match lam with
             | some lc => lc.AwsRequestID
             | none => "")
      ∧ ((logctxGet
          (contextFromEvent ⟨lam, fields⟩ (DynEvent.apigwV1 request : DynEvent α)).2).drop
            fields.length).head?
        = some (logctxString "request_id"
            (contextFromEvent ⟨lam, fields⟩ (DynEvent.apigwV1 request : DynEvent α)).1) := by
  refine ⟨?_, ?_⟩
  · cases lam <;> by_cases hid : request.RequestContext.RequestID = "" <;>
      simp [contextFromEvent, lambdacontextFromContext, hid]
  · simp [contextFromEvent, logctxAdd, logctxGet]

/-! ## The response transformation -/

/-- C9: for a gateway response with a non-nil `Headers` map, `transformResponse` returns a
gateway response whose header `x-request-id` is the request id, whose other headers are
those of the response, and whose other fields are those of the response. -/
theorem C9_transformResponse_sets_header {β : Type} (response : APIGatewayProxyResponse)
    (headers : GoMap String) (requestId : String) (hmap : response.Headers = some headers) :
    (transformResponse (DynResponse.apigwV1 response : DynResponse β) requestId
        = DynResponse.apigwV1
            { StatusCode := response.StatusCode
              Headers := some (headers.set "x-request-id" requestId)
              MultiValueHeaders := response.MultiValueHeaders
              Body := response.Body
              IsBase64Encoded := response.IsBase64Encoded })
      ∧ (headers.set "x-request-id" requestId) "x-request-id" = some requestId
      ∧ ∀ key : String, key ≠ "x-request-id" →
          (headers.set "x-request-id" requestId) key = headers key := by
  refine ⟨?_, ?_, ?_⟩
  · simp [transformResponse, hmap]
  · simp [GoMap.set]
  · intro key hkey
    simp [GoMap.set, hkey]

/-- The gateway case of `Test_transformResponse`, through C9. -/
theorem C9_transformResponse_sets_header_witness :
    testApigwResponse.Headers = some GoMap.empty
      ∧ (transformResponse (DynResponse.apigwV1 testApigwResponse : DynResponse String)
            "test-request-id"
          = DynResponse.apigwV1
              { StatusCode := 0
                Headers := some (GoMap.set GoMap.empty "x-request-id" "test-request-id")
                MultiValueHeaders := none
                Body := ""
                IsBase64Encoded := false })
      ∧ (GoMap.set GoMap.empty "x-request-id" "test-request-id") "x-request-id"
          = some "test-request-id"
      ∧ ∀ key : String, key ≠ "x-request-id" →
          (GoMap.set GoMap.empty "x-request-id" "test-request-id") key
            = (GoMap.empty : GoMap String) key :=
  ⟨rfl, C9_transformResponse_sets_header testApigwResponse GoMap.empty "test-request-id" rfl⟩

/-- C10: `transformResponse` returns the response unchanged when it is not a gateway
response, and when it is a gateway response whose `Headers` map is nil (no map is made). -/
theorem C10_transformResponse_passes_through {β : Type} (value : β)
    (response : APIGatewayProxyResponse) (requestId : String)
    (hnil : response.Headers = none) :
    transformResponse (DynResponse.other value) requestId = DynResponse.other value
      ∧ transformResponse (DynResponse.apigwV1 response : DynResponse β) requestId
          = DynResponse.apigwV1 response := by
  refine ⟨rfl, ?_⟩
  simp [transformResponse, hnil]

/-- The string case of `Test_transformResponse` and a response with nil headers,
through C10. -/
theorem C10_transformResponse_passes_through_witness :
    apigwResponseNilHeaders.Headers = none
      ∧ transformResponse (DynResponse.other "test-response") "test-request-id"
          = DynResponse.other "test-response"
      ∧ transformResponse (DynResponse.apigwV1 apigwResponseNilHeaders : DynResponse String)
            "test-request-id"
          = DynResponse.apigwV1 apigwResponseNilHeaders :=
  ⟨rfl, C10_transformResponse_passes_through "test-response" apigwResponseNilHeaders
    "test-request-id" rfl⟩

/-! ## The context wrapper for handlers with a response -/

/-- C11: `contextWithResponse.Wrap(next)(ctx, e)` is `(transformResponse(resp, id), err)` for
`(id, ctx1) = contextFromEvent(ctx, e)` and `(resp, err) = next(ctx1, e)`, with `next` invoked
exactly once; so for a gateway request with a non-empty `RequestID` and a gateway response
with non-nil headers the `x-request-id` returned is the event's `RequestID`, whatever the
error, which is returned unchanged. -/
theorem C11_context_with_response_wrap {σ α β : Type}
    (next : HandlerWithResponseFn σ (DynEvent α) (DynResponse β)) (ctx : Context)
    (event : DynEvent α) (calls : List (Context × DynEvent α)) (s : σ) :
    NewContextWithResponse.Wrap next ctx event s
        = ((transformResponse (next (contextFromEvent ctx event).2 event s).1.1
              (contextFromEvent ctx event).1,
            (next (contextFromEvent ctx event).2 event s).1.2),
           (next (contextFromEvent ctx event).2 event s).2)
      ∧ NewContextWithResponse.Wrap (recordCallsWithResponse next) ctx event (calls, s)
        = ((transformResponse (next (contextFromEvent ctx event).2 event s).1.1
              (contextFromEvent ctx event).1,
            (next (contextFromEvent ctx event).2 event s).1.2),
           (calls ++ [((contextFromEvent ctx event).2, event)],
            (next (contextFromEvent ctx event).2 event s).2))
      ∧ ∀ (request : APIGatewayProxyRequest) (response : APIGatewayProxyResponse)
          (headers : GoMap String) (err : GoError),
          request.RequestContext.RequestID ≠ "" →
          response.Headers = some headers →
          (next (contextFromEvent ctx (DynEvent.apigwV1 request : DynEvent α)).2
            (DynEvent.apigwV1 request) s).1 = (DynResponse.apigwV1 response, err) →
          (NewContextWithResponse.Wrap next ctx (DynEvent.apigwV1 request) s).1
            = (DynResponse.apigwV1
                { StatusCode := response.StatusCode
                  Headers :=
                    some (headers.set "x-request-id" request.RequestContext.RequestID)
                  MultiValueHeaders := response.MultiValueHeaders
                  Body := response.Body
                  IsBase64Encoded := response.IsBase64Encoded }, err) := by
  refine ⟨rfl, rfl, ?_⟩
  intro request response headers err hid hmap hnext
  have hreq : (contextFromEvent ctx (DynEvent.apigwV1 request : DynEvent α)).1
      = request.RequestContext.RequestID := by
    simp [contextFromEvent, hid]
  show ((transformResponse _ _, _) : DynResponse β × GoError) = _
  rw [hnext, hreq]
  simp [transformResponse, hmap]

/-- A handler that returns the response of `Test_transformResponse` with an error, behind
the context wrapper, on the gateway event of `Test_contextFromEvent`: through C11. -/
theorem C11_context_with_response_wrap_witness :
    testApigwEvent.RequestContext.RequestID ≠ ""
      ∧ testApigwResponse.Headers = some GoMap.empty
      ∧ ((fun _ _ s => ((DynResponse.apigwV1 testApigwResponse, some "error"), s) :
            HandlerWithResponseFn Unit (DynEvent String) (DynResponse String))
          (contextFromEvent testLambdaCtx (DynEvent.apigwV1 testApigwEvent : DynEvent String)).2
          (DynEvent.apigwV1 testApigwEvent) ()).1
        = (DynResponse.apigwV1 testApigwResponse, some "error")
      ∧ (NewContextWithResponse.Wrap
          (fun _ _ s => ((DynResponse.apigwV1 testApigwResponse, some "error"), s) :
            HandlerWithResponseFn Unit (DynEvent String) (DynResponse String))
          testLambdaCtx (DynEvent.apigwV1 testApigwEvent) ()).1
        = (DynResponse.apigwV1
            { StatusCode := 0
              Headers := some (GoMap.set GoMap.empty "x-request-id" "amzn-request-id-123")
              MultiValueHeaders := none
              Body := ""
              IsBase64Encoded := false }, some "error") :=
  ⟨by decide, rfl, rfl,
   (C11_context_with_response_wrap
      (fun _ _ s => ((DynResponse.apigwV1 testApigwResponse, some "error"), s) :
        HandlerWithResponseFn Unit (DynEvent String) (DynResponse String))
      testLambdaCtx (DynEvent.apigwV1 testApigwEvent) [] ()).2.2 testApigwEvent
      testApigwResponse GoMap.empty (some "error") (by decide) rfl rfl⟩

/-! ## The metrics wrapper -/

/-- C12: one invocation of `metricsNoResponse.Wrap(next)` reads `start = clock.Now()`,
outputs "Request started" with the event, calls `next` once, reads `clock.Since(start)` and
outputs "Request complete" with that duration: two records, the first before `next` and the
second after it, whatever `next` returns. -/
theorem C12_metrics_no_response_sequence {σ E : Type} (c : Clock σ) (o : Outputter σ E)
    (next : HandlerFn σ E) (ctx : Context) (event : E) (log : List (Action E)) (s : σ) :
    let start := c.Now s
    let s1 := o.Output ctx "Request started" [⟨"event", .event event⟩] start.2
    let out := next ctx event s1
    let since := c.Since start.1 out.2
    let s2 := o.Output ctx "Request complete" [⟨"duration", .duration since.1⟩] since.2
    metricsNoResponse.Wrap ⟨logClock c, logOutputter o⟩ (logNext next) ctx event (log, s)
      = (out.1,
         (log ++ [Action.clockNow start.1,
                  Action.output ctx "Request started" [⟨"event", .event event⟩],
                  Action.next ctx event,
                  Action.clockSince start.1 since.1,
                  Action.output ctx "Request complete" [⟨"duration", .duration since.1⟩]],
          s2)) := by
  intro start s1 out since s2
  simp [metricsNoResponse.Wrap, logClock, logOutputter, logNext, requestStartedMsg,
    requestCompleteMsg, start, s1, out, since, s2]

/-- C13: the "Request complete" record of `metricsWithResponse.Wrap` has the fields
`[duration]` when the response of `next` is not a gateway response and
`[duration, status_code]`, with the response's `StatusCode`, when it is: `status_code` is
present exactly for the gateway shape. -/
theorem C13_complete_record_fields {σ E β : Type} (c : Clock σ) (o : Outputter σ E)
    (next : HandlerWithResponseFn σ E (DynResponse β)) (ctx : Context) (event : E)
    (log : List (Action E)) (s : σ) :
    let start := c.Now s
    let s1 := o.Output ctx "Request started" [⟨"event", .event event⟩] start.2
    let out := next ctx event s1
    let since := c.Since start.1 out.2
    let fields : List (MetricsField E) :=
      match out.1.1 with
      | .apigwV1 resp =>
        [⟨"duration", .duration since.1⟩, ⟨"status_code", .int resp.StatusCode⟩]
      | .other _ => [⟨"duration", .duration since.1⟩]
    (metricsWithResponse.Wrap ⟨logClock c, logOutputter o⟩ (logNextWithResponse next)
        ctx event (log, s)).2.1
      = log ++ [Action.clockNow start.1,
                Action.output ctx "Request started" [⟨"event", .event event⟩],
                Action.next ctx event,
                Action.clockSince start.1 since.1,
                Action.output ctx "Request complete" fields]
      ∧ ((∃ f ∈ fields, f.Name = "status_code") ↔ ∃ resp, out.1.1 = DynResponse.apigwV1 resp) := by
  intro start s1 out since fields
  constructor
  · simp only [metricsWithResponse.Wrap, logClock, logOutputter, logNextWithResponse,
      requestStartedMsg, requestCompleteMsg, fields, since, out, s1, start]
    cases (next ctx event (o.Output ctx "Request started" [⟨"event", .event event⟩]
      (c.Now s).2)).1.1 <;> simp
  · simp only [fields, out, s1, start]
    cases (next ctx event (o.Output ctx "Request started" [⟨"event", .event event⟩]
      (c.Now s).2)).1.1 <;> simp

/-- C14: with a fixed clock, whose `Now()` is always the instant `t` and whose `Since(s)` is
`t` minus `s`, the `duration` field of the "Request complete" record is zero in both
variants, for every event and every `next`. -/
theorem C14_fixed_clock_zero_duration {σ E β : Type} (t : Time) (o : Outputter σ E)
    (next : HandlerFn σ E) (nextr : HandlerWithResponseFn σ E (DynResponse β))
    (ctx : Context) (event : E) (log : List (Action E)) (s : σ) :
    (metricsNoResponse.Wrap ⟨clockNewFixed t, logOutputter o⟩ (logNext next)
        ctx event (log, s)).2.1
      = log ++ [Action.output ctx "Request started" [⟨"event", .event event⟩],
                Action.next ctx event,
                Action.output ctx "Request complete" [⟨"duration", .duration 0⟩]]
      ∧ (metricsWithResponse.Wrap ⟨clockNewFixed t, logOutputter o⟩
          (logNextWithResponse nextr) ctx event (log, s)).2.1
        = log ++ [Action.output ctx "Request started" [⟨"event", .event event⟩],
                  Action.next ctx event,
                  Action.output ctx "Request complete"
                    (⟨"duration", .duration 0⟩ ::
                      match (nextr ctx event
                        (o.Output ctx "Request started" [⟨"event", .event event⟩] s)).1.1 with
                      | .apigwV1 resp => [⟨"status_code", .int resp.StatusCode⟩]
                      | .other _ => [])] := by
  constructor
  · simp [metricsNoResponse.Wrap, clockNewFixed, logOutputter, logNext, requestStartedMsg,
      requestCompleteMsg]
  · simp only [metricsWithResponse.Wrap, clockNewFixed, logOutputter, logNextWithResponse,
      requestStartedMsg, requestCompleteMsg]
    cases (nextr ctx event
      (o.Output ctx "Request started" [⟨"event", .event event⟩] s)).1.1 <;> simp

/-- C15: the functions returned by `metricsNoResponse.Wrap` and `metricsWithResponse.Wrap`
invoke `next` exactly once, with the context and the event they received, and return
exactly what `next` returned: the error, and the response unmodified. -/
theorem C15_metrics_wrap_passes_through {σ E β : Type} (c : Clock σ) (o : Outputter σ E)
    (next : HandlerFn σ E) (nextr : HandlerWithResponseFn σ E (DynResponse β))
    (ctx : Context) (event : E) (log : List (Action E)) (s : σ) :
    let s1 := o.Output ctx "Request started" [⟨"event", .event event⟩] (c.Now s).2
    (metricsNoResponse.Wrap ⟨c, o⟩ next ctx event s).1 = (next ctx event s1).1
      ∧ callsOf (metricsNoResponse.Wrap ⟨logClock c, logOutputter o⟩ (logNext next)
          ctx event (log, s)).2.1 = callsOf log ++ [(ctx, event)]
      ∧ (metricsWithResponse.Wrap ⟨c, o⟩ nextr ctx event s).1 = (nextr ctx event s1).1
      ∧ callsOf (metricsWithResponse.Wrap ⟨logClock c, logOutputter o⟩
          (logNextWithResponse nextr) ctx event (log, s)).2.1 = callsOf log ++ [(ctx, event)] := by
  intro s1
  refine ⟨rfl, ?_, rfl, ?_⟩
  · simp [metricsNoResponse.Wrap, logClock, logOutputter, logNext, callsOf,
      List.filterMap_append]
  · simp [metricsWithResponse.Wrap, logClock, logOutputter, logNextWithResponse, callsOf,
      List.filterMap_append]

/-! ## The common chains -/

theorem wrappedHandlerFn_Common {σ α : Type} (c : Clock σ) (o : Outputter σ (DynEvent α))
    (h : Handler σ (DynEvent α)) :
    wrappedHandlerFn h (Common c o)
      = contextNoResponse.Wrap (metricsNoResponse.Wrap ⟨c, o⟩ h.Handle) := rfl

theorem wrappedHandlerWithResponseFn_CommonWithResponse {σ α β : Type} (c : Clock σ)
    (o : Outputter σ (DynEvent α)) (h : HandlerWithResponse σ (DynEvent α) (DynResponse β)) :
    wrappedHandlerWithResponseFn h (CommonWithResponse c o)
      = contextWithResponse.Wrap (metricsWithResponse.Wrap ⟨c, o⟩ h.Handle) := rfl

/-- C16: in the chain built from `CommonWithResponse` around a handler that returns `(r, e)`
with `e` a non-nil error, the "Request complete" record is still emitted exactly once, after
the handler returns, the `x-request-id` transformation is still applied to `r`, and `e` is
returned unchanged; the chain built from `Common` likewise returns `e` unchanged after the
complete record. -/
theorem C16_common_chain_error {σ α β : Type} (c : Clock σ) (o : Outputter σ (DynEvent α))
    (h : Handler σ (DynEvent α)) (hr : HandlerWithResponse σ (DynEvent α) (DynResponse β))
    (ctx : Context) (event : DynEvent α) (log : List (Action (DynEvent α))) (s : σ)
    (r : DynResponse β) (msg : String)
    (hret : (hr.Handle (contextFromEvent ctx event).2 event
        (o.Output (contextFromEvent ctx event).2 "Request started" [⟨"event", .event event⟩]
          (c.Now s).2)).1 = (r, some msg))
    (herr : (h.Handle (contextFromEvent ctx event).2 event
        (o.Output (contextFromEvent ctx event).2 "Request started" [⟨"event", .event event⟩]
          (c.Now s).2)).1 = some msg) :
    let ctx1 := (contextFromEvent ctx event).2
    let start := c.Now s
    let s1 := o.Output ctx1 "Request started" [⟨"event", .event event⟩] start.2
    let since := c.Since start.1 (h.Handle ctx1 event s1).2
    let sincer := c.Since start.1 (hr.Handle ctx1 event s1).2
    wrappedHandlerWithResponseFn ⟨logNextWithResponse hr.Handle⟩
        (CommonWithResponse (logClock c) (logOutputter o)) ctx event (log, s)
        = ((transformResponse r (contextFromEvent ctx event).1, some msg),
           (log ++ [Action.clockNow start.1,
                    Action.output ctx1 "Request started" [⟨"event", .event event⟩],
                    Action.next ctx1 event,
                    Action.clockSince start.1 sincer.1,
                    Action.output ctx1 "Request complete"
                      (⟨"duration", .duration sincer.1⟩ ::
                        match r with
                        | .apigwV1 resp => [⟨"status_code", .int resp.StatusCode⟩]
                        | .other _ => [])],
            o.Output ctx1 "Request complete"
              (⟨"duration", .duration sincer.1⟩ ::
                match r with
                | .apigwV1 resp => [⟨"status_code", .int resp.StatusCode⟩]
                | .other _ => []) sincer.2))
      ∧ wrappedHandlerFn ⟨logNext h.Handle⟩ (Common (logClock c) (logOutputter o))
          ctx event (log, s)
        = (some msg,
           (log ++ [Action.clockNow start.1,
                    Action.output ctx1 "Request started" [⟨"event", .event event⟩],
                    Action.next ctx1 event,
                    Action.clockSince start.1 since.1,
                    Action.output ctx1 "Request complete" [⟨"duration", .duration since.1⟩]],
            o.Output ctx1 "Request complete" [⟨"duration", .duration since.1⟩] since.2)) := by
  intro ctx1 start s1 since sincer
  constructor
  · rw [wrappedHandlerWithResponseFn_CommonWithResponse]
    simp only [contextWithResponse.Wrap, metricsWithResponse.Wrap, logClock, logOutputter,
      logNextWithResponse, requestStartedMsg, requestCompleteMsg, hret]
    cases r <;> simp [ctx1, start, s1, sincer]
  · rw [wrappedHandlerFn_Common]
    simp [contextNoResponse.Wrap, metricsNoResponse.Wrap, logClock, logOutputter, logNext,
      requestStartedMsg, requestCompleteMsg, herr, ctx1, start, s1, since]

/-- The failing handlers behind the common chains, under the ambient context and on the
gateway event of `Test_contextFromEvent`: through C16. -/
theorem C16_common_chain_error_witness :
    (failingHandlerWithResponse.Handle
        (contextFromEvent testLambdaCtx (DynEvent.apigwV1 testApigwEvent : DynEvent String)).2
        (DynEvent.apigwV1 testApigwEvent) ()).1
        = (DynResponse.apigwV1 testApigwResponse, some "error")
      ∧ (failingHandler.Handle
          (contextFromEvent testLambdaCtx (DynEvent.apigwV1 testApigwEvent : DynEvent String)).2
          (DynEvent.apigwV1 testApigwEvent) ()).1 = some "error"
      ∧ (wrappedHandlerWithResponseFn ⟨logNextWithResponse failingHandlerWithResponse.Handle⟩
          (CommonWithResponse (logClock (clockNewFixed 0)) (logOutputter discardOutputter))
          testLambdaCtx (DynEvent.apigwV1 testApigwEvent) ([], ())).1
        = (transformResponse (DynResponse.apigwV1 testApigwResponse) "amzn-request-id-123",
           some "error")
      ∧ (wrappedHandlerFn ⟨logNext failingHandler.Handle⟩
          (Common (logClock (clockNewFixed 0)) (logOutputter discardOutputter))
          testLambdaCtx (DynEvent.apigwV1 testApigwEvent) ([], ())).1 = some "error" :=
  ⟨rfl, rfl,
   congrArg Prod.fst
     (C16_common_chain_error (clockNewFixed 0) discardOutputter failingHandler
       failingHandlerWithResponse testLambdaCtx (DynEvent.apigwV1 testApigwEvent) [] ()
       (DynResponse.apigwV1 testApigwResponse) "error" rfl rfl).1,
   congrArg Prod.fst
     (C16_common_chain_error (clockNewFixed 0) discardOutputter failingHandler
       failingHandlerWithResponse testLambdaCtx (DynEvent.apigwV1 testApigwEvent) [] ()
       (DynResponse.apigwV1 testApigwResponse) "error" rfl rfl).2⟩

/-! ## The response helpers -/

/-- C17: `New(status, body)` has `StatusCode = status`, `Body = body` as given, a `Headers`
map that is non-nil and empty (so without `Content-Type`), and every other field zero. -/
theorem C17_New_fields (status : Int) (body : String) :
    New status body
        = { StatusCode := status
            Headers := some GoMap.empty
            MultiValueHeaders := none
            Body := body
            IsBase64Encoded := false }
      ∧ (∃ headers, (New status body).Headers = some headers ∧ ∀ key, headers key = none) :=
  ⟨rfl, GoMap.empty, rfl, fun _ => rfl⟩

/-- C18: `NewJson(status, body)` with a nil body has `StatusCode = status`, an empty `Body`
and a non-nil empty `Headers` map; with a non-nil body that serializes to the text `j` it has
`StatusCode = status`, `Body = j` and `Headers` with exactly the one entry
`Content-Type: application/json`. -/
theorem C18_NewJson_nil_and_success {B : Type} (jsonMarshal : B → Except String String)
    (status : Int) (b : B) (j : String) (hj : jsonMarshal b = .ok j) :
    NewJson jsonMarshal status none
        = { StatusCode := status
            Headers := some GoMap.empty
            MultiValueHeaders := none
            Body := ""
            IsBase64Encoded := false }
      ∧ NewJson jsonMarshal status (some b)
        = { StatusCode := status
            Headers := some (GoMap.set GoMap.empty "Content-Type" "application/json")
            MultiValueHeaders := none
            Body := j
            IsBase64Encoded := false }
      ∧ ∀ key : String,
          (GoMap.set GoMap.empty "Content-Type" "application/json") key
            = if key = "Content-Type" then some "application/json" else none := by
  refine ⟨rfl, ?_, fun key => rfl⟩
  simp [NewJson, hj]

/-- The JSON case of `TestNewJson`, through C18. -/
theorem C18_NewJson_nil_and_success_witness :
    jsonMarshalTestBody quotePlain ⟨456, "test-789"⟩
        = .ok "\x7b\"num\":456,\"str\":\"test-789\"\x7d"
      ∧ NewJson (jsonMarshalTestBody quotePlain) 123 (some ⟨456, "test-789"⟩)
        = { StatusCode := 123
            Headers := some (GoMap.set GoMap.empty "Content-Type" "application/json")
            MultiValueHeaders := none
            Body := "\x7b\"num\":456,\"str\":\"test-789\"\x7d"
            IsBase64Encoded := false } :=
  ⟨rfl,
   (C18_NewJson_nil_and_success (jsonMarshalTestBody quotePlain) 123 ⟨456, "test-789"⟩
      "\x7b\"num\":456,\"str\":\"test-789\"\x7d" rfl).2.1⟩

/-- C19: `NewJson(status, body)` with a non-nil body whose serialization fails returns
`StatusCode = status`, an empty `Body` and a non-nil empty `Headers` map; for every body the
`Headers` map is non-nil and holds `Content-Type` exactly when the body is non-nil and its
serialization succeeds. -/
theorem C19_NewJson_failure {B : Type} (jsonMarshal : B → Except String String)
    (status : Int) (b : B) (e : String) (hfail : jsonMarshal b = .error e) :
    NewJson jsonMarshal status (some b)
        = { StatusCode := status
            Headers := some GoMap.empty
            MultiValueHeaders := none
            Body := ""
            IsBase64Encoded := false }
      ∧ ∀ body : Option B, ∃ headers,
          (NewJson jsonMarshal status body).Headers = some headers
            ∧ (headers "Content-Type" ≠ none
                ↔ ∃ b1 j, body = some b1 ∧ jsonMarshal b1 = .ok j) := by
  constructor
  · simp [NewJson, hfail]
  · intro body
    cases body with
    | none => exact ⟨GoMap.empty, rfl, by simp [GoMap.empty]⟩
    | some b1 =>
      cases hm : jsonMarshal b1 with
      | error e1 =>
        refine ⟨GoMap.empty, by simp [NewJson, hm], ?_⟩
        simp [GoMap.empty, hm]
      | ok j =>
        refine ⟨GoMap.set GoMap.empty "Content-Type" "application/json",
          by simp [NewJson, hm], ?_⟩
        simp [GoMap.set, hm]

/-- A channel as the body, which `json.Marshal` rejects: through C19. -/
theorem C19_NewJson_failure_witness :
    jsonMarshalChan () = .error "json: unsupported type: chan int"
      ∧ NewJson jsonMarshalChan 500 (some ())
        = { StatusCode := 500
            Headers := some GoMap.empty
            MultiValueHeaders := none
            Body := ""
            IsBase64Encoded := false } :=
  ⟨rfl, (C19_NewJson_failure jsonMarshalChan 500 () "json: unsupported type: chan int" rfl).1⟩

/-- C20: `NewError(status, msg)` is `NewJson(status, responseError{status, msg})`: it has
`StatusCode = status`, its `Body` is the JSON object of the two fields `code` (the status)
and `message` (the message) in that order, and, as this serialization never fails, its
`Headers` always hold `Content-Type: application/json`. -/
theorem C20_NewError (quote : String → String) (status : Int) (msg : String) :
    NewError quote status msg
        = NewJson (jsonMarshalResponseError quote) status
            (some { Code := status, Message := msg })
      ∧ NewError quote status msg
        = { StatusCode := status
            Headers := some (GoMap.set GoMap.empty "Content-Type" "application/json")
            MultiValueHeaders := none
            Body := "\x7b\"code\":" ++ toString status ++ ",\"message\":" ++ quote msg
              ++ "\x7d"
            IsBase64Encoded := false }
      ∧ (GoMap.set GoMap.empty "Content-Type" "application/json") "Content-Type"
        = some "application/json" :=
  ⟨rfl, rfl, rfl⟩

/-! ## The context wrapper is outermost in the common chains -/

theorem contextFromEvent_attaches_request_ids {α : Type} (ctx : Context) (event : DynEvent α) :
    ∃ rest, logctxGet (contextFromEvent ctx event).2
      = logctxGet ctx ++
          logctxString "request_id" (contextFromEvent ctx event).1 ::
          logctxString "lambda_request_id"
            (match lambdacontextFromContext ctx with
              | some lambdaCtx => lambdaCtx.AwsRequestID
              | none => "") :: rest := by
  cases event with
  | apigwV1 request =>
    refine ⟨[logctxString "amzn_request_id"
        (if request.RequestContext.RequestID ≠ "" then request.RequestContext.RequestID
         else ""),
      logctxString "request_method" request.RequestContext.HTTPMethod,
      logctxString "request_domain" request.RequestContext.DomainName,
      logctxString "request_path" request.RequestContext.Path], ?_⟩
    cases hl : lambdacontextFromContext ctx <;>
      by_cases hid : request.RequestContext.RequestID = "" <;>
      simp [contextFromEvent, logctxAdd, logctxGet, hl, hid]
  | other value =>
    refine ⟨[], ?_⟩
    cases hl : lambdacontextFromContext ctx <;>
      simp [contextFromEvent, logctxAdd, logctxGet, hl]

/-- C21: `Common` and `CommonWithResponse` are the two wrappers `[context, metrics]` in that
order, so the context wrapper is outermost in the composed chain: the "Request started" and
"Request complete" `Output` calls and the handler all receive the context produced by
`contextFromEvent`, which carries `request_id` and `lambda_request_id` and is not the
ambient context. -/
theorem C21_common_chain_context_outermost {σ α β : Type} (c : Clock σ)
    (o : Outputter σ (DynEvent α)) (h : Handler σ (DynEvent α))
    (hr : HandlerWithResponse σ (DynEvent α) (DynResponse β)) (ctx : Context)
    (event : DynEvent α) (log : List (Action (DynEvent α))) (s : σ) :
    let ctx1 := (contextFromEvent ctx event).2
    let start := c.Now s
    let s1 := o.Output ctx1 "Request started" [⟨"event", .event event⟩] start.2
    let since := c.Since start.1 (h.Handle ctx1 event s1).2
    let sincer := c.Since start.1 (hr.Handle ctx1 event s1).2
    Common c o = [NewContext, NewMetrics c o]
      ∧ (CommonWithResponse c o : List (WithResponse σ (DynEvent α) (DynResponse β)))
        = [NewContextWithResponse, NewMetricsWithResponse c o]
      ∧ (wrappedHandlerFn ⟨logNext h.Handle⟩ (Common (logClock c) (logOutputter o))
          ctx event (log, s)).2.1
        = log ++ [Action.clockNow start.1,
                  Action.output ctx1 "Request started" [⟨"event", .event event⟩],
                  Action.next ctx1 event,
                  Action.clockSince start.1 since.1,
                  Action.output ctx1 "Request complete" [⟨"duration", .duration since.1⟩]]
      ∧ (wrappedHandlerWithResponseFn ⟨logNextWithResponse hr.Handle⟩
          (CommonWithResponse (logClock c) (logOutputter o)) ctx event (log, s)).2.1
        = log ++ [Action.clockNow start.1,
                  Action.output ctx1 "Request started" [⟨"event", .event event⟩],
                  Action.next ctx1 event,
                  Action.clockSince start.1 sincer.1,
                  Action.output ctx1 "Request complete"
                    (⟨"duration", .duration sincer.1⟩ ::
                      match (hr.Handle ctx1 event s1).1.1 with
                      | .apigwV1 resp => [⟨"status_code", .int resp.StatusCode⟩]
                      | .other _ => [])]
      ∧ (∃ rest, logctxGet ctx1
          = logctxGet ctx ++
              logctxString "request_id" (contextFromEvent ctx event).1 ::
              logctxString "lambda_request_id"
                (match lambdacontextFromContext ctx with
                  | some lambdaCtx => lambdaCtx.AwsRequestID
                  | none => "") :: rest)
      ∧ ctx1 ≠ ctx := by
  intro ctx1 start s1 since sincer
  refine ⟨rfl, rfl, ?_, ?_, contextFromEvent_attaches_request_ids ctx event, ?_⟩
  · rw [wrappedHandlerFn_Common]
    simp [contextNoResponse.Wrap, metricsNoResponse.Wrap, logClock, logOutputter, logNext,
      requestStartedMsg, requestCompleteMsg, ctx1, start, s1, since]
  · rw [wrappedHandlerWithResponseFn_CommonWithResponse]
    simp only [contextWithResponse.Wrap, metricsWithResponse.Wrap, logClock, logOutputter,
      logNextWithResponse, requestStartedMsg, requestCompleteMsg, ctx1, start, s1, sincer]
    cases (hr.Handle (contextFromEvent ctx event).2 event
      (o.Output (contextFromEvent ctx event).2 "Request started" [⟨"event", .event event⟩]
        (c.Now s).2)).1.1 <;> simp
  · intro hsame
    obtain ⟨rest, hrest⟩ := contextFromEvent_attaches_request_ids ctx event
    have hlen := congrArg List.length hrest
    simp only [ctx1] at hsame
    rw [hsame] at hlen
    simp at hlen

end ElloAws
